import Mathlib

/-!
# farmbot_navigation: the `path_server` node (`src/path_server.cpp`)

A shallow embedding of class `Navigator`: its message types, its member
variables as an explicit node state, its constructor, its callbacks and the
control law `get_nav_params`.

Conventions.
* `double` is read as `ℝ`; `std::sqrt`, `std::sin`, `std::cos` are the real
  functions and `std::atan2 y x` is the angle in `(-π, π]` of the point
  `(x, y)`, with value `0` at the origin.
* where rounding decides the value returned, the control law is also given
  in double arithmetic (`get_nav_params_fl`): each operation is the real one
  followed by rounding to binary64.
* `rclcpp::Time` is a natural number (nanoseconds); `this->now()` is an
  argument of the callback that reads it.
* a `SharedPtr` member is an `Option`: `none` is the null pointer, and
  dereferencing it is a fault.
* logging (`RCLCPP_INFO`) is returned as a list of lines where a callback
  does nothing else.
-/

namespace PathServer

/-! ## Message types -/

/-- Message `geometry_msgs/msg/Point`. -/
structure Point where
  x : ℝ
  y : ℝ
  z : ℝ

/-- Message `geometry_msgs/msg/Quaternion`. -/
structure Quaternion where
  x : ℝ
  y : ℝ
  z : ℝ
  w : ℝ

/-- Message `geometry_msgs/msg/Pose`. -/
structure Pose where
  position : Point
  orientation : Quaternion

/-- Message `std_msgs/msg/Header`: time stamp and frame label. -/
structure Header where
  stamp : Nat
  frame_id : String

/-- Message `geometry_msgs/msg/PoseStamped`. -/
structure PoseStamped where
  header : Header
  pose : Pose

/-- Message `nav_msgs/msg/Path`. -/
structure Path where
  header : Header
  poses : List PoseStamped

/-- Message `sensor_msgs/msg/NavSatFix` (the fields of the position sample). -/
structure NavSatFix where
  header : Header
  latitude : ℝ
  longitude : ℝ
  altitude : ℝ

/-- Message `nav_msgs/msg/Odometry`, read through `odom->pose.pose`. -/
structure Odometry where
  header : Header
  pose : Pose

/-- Message `std_msgs/msg/Empty`. -/
structure EmptyMsg where
  deriving DecidableEq

/-- Goal of action `farmbot_interfaces/action/Nav`. -/
structure Goal where
  initial_path : Path

/-- Feedback of action `Nav`; `execute` never writes a field of it. -/
structure Feedback where
  deriving DecidableEq

/-- Result of action `Nav`. -/
structure Result where
  plan_result : EmptyMsg
  deriving DecidableEq

/-- Type `rclcpp_action::GoalUUID`. -/
abbrev GoalUUID := List Nat

/-- Enumeration `rclcpp_action::GoalResponse`. -/
inductive GoalResponse where
  | REJECT
  | ACCEPT_AND_EXECUTE
  | ACCEPT_AND_DEFER
  deriving DecidableEq

/-- Enumeration `rclcpp_action::CancelResponse`. -/
inductive CancelResponse where
  | REJECT
  | ACCEPT
  deriving DecidableEq

/-- States of a server goal handle. -/
inductive GoalStatus where
  | Executing
  | Canceling
  | Canceled
  | Succeeded
  deriving DecidableEq

/-- Server goal handle `rclcpp_action::ServerGoalHandle<Nav>`: the goal, its
state, the result set by a terminal transition, the feedback sent so far. -/
structure GoalHandle where
  goal : Goal
  status : GoalStatus
  result : Option Result
  feedback : List Feedback

/-! ## Node state -/

/-- Publisher `rclcpp::Publisher<nav_msgs::msg::Path>`, known by its topic. -/
structure Publisher where
  topic : String
  deriving DecidableEq

/-- Member variables of class `Navigator`. The two subscribers are their
topics, the synchronizer its queue size, the timer its period in
milliseconds, the action server its endpoint. -/
structure NodeState where
  inited_waypoints : Bool
  fix_sub_ : Option String
  odom_sub_ : Option String
  sync_ : Option Nat
  path_nav : Path
  path_pub : Option Publisher
  path_timer : Option Nat
  current_pose_ : Pose
  current_gps_ : NavSatFix
  target_pose_ : Point
  action_server_ : Option String

/-! ## Control law: `get_nav_params` -/

/-- Function `std::max(a, b)`: `(a < b) ? b : a`. -/
def std_max {α : Type} [LinearOrder α] (a b : α) : α := if a < b then b else a

/-- Function `std::min(a, b)`: `(b < a) ? b : a`. -/
def std_min {α : Type} [LinearOrder α] (a b : α) : α := if b < a then b else a

/-- Function `std::atan2(y, x)` over the reals: the argument of `x + y i`. -/
noncomputable def atan2 (y x : ℝ) : ℝ := Complex.arg ⟨x, y⟩

/-- Local `distance` of `get_nav_params` (lines 127-129). -/
noncomputable def distance (s : NodeState) : ℝ :=
  Real.sqrt ((s.target_pose_.x - s.current_pose_.position.x) ^ 2 +
             (s.target_pose_.y - s.current_pose_.position.y) ^ 2)

/-- Local `preheading` of `get_nav_params` (lines 131-133). -/
noncomputable def preheading (s : NodeState) : ℝ :=
  atan2 (s.target_pose_.y - s.current_pose_.position.y)
        (s.target_pose_.x - s.current_pose_.position.x)

/-- Local `orientation` of `get_nav_params` (lines 134-136). -/
noncomputable def orientation (s : NodeState) : ℝ :=
  atan2 (2 * (s.current_pose_.orientation.w * s.current_pose_.orientation.z +
              s.current_pose_.orientation.x * s.current_pose_.orientation.y))
        (1 - 2 * (s.current_pose_.orientation.y ^ 2 + s.current_pose_.orientation.z ^ 2))

/-- Local `heading_corrected` of `get_nav_params` as a function of `heading`
(line 138). -/
noncomputable def heading_corrected (heading : ℝ) : ℝ :=
  atan2 (Real.sin heading) (Real.cos heading)

/-- Method `Navigator::get_nav_params(angle_max, velocity_max)`: the array
`{velocity, angular, distance}` as a triple. -/
noncomputable def get_nav_params (s : NodeState) (angle_max velocity_max : ℝ) : ℝ × ℝ × ℝ :=
  let distance := distance s
  let velocity := 0.2 * distance
  let preheading := preheading s
  let orientation := orientation s
  let heading := preheading - orientation
  let heading_corrected := heading_corrected heading
  let angular := std_max (-angle_max) (std_min heading_corrected angle_max)
  let velocity := std_max (-velocity_max) (std_min velocity velocity_max)
  (velocity, angular, distance)

/-- Value of a node parameter, `rclcpp::ParameterValue`, by its type. -/
inductive ParameterValue where
  | string_value (s : String)
  | integer_value (n : Int)
  | not_set

/-- Options `rclcpp::NodeOptions`, as far as the constructor reads them: the
parameters declared on the node at startup. -/
structure NodeOptions where
  parameters : String → Option ParameterValue

/-- Exceptions thrown by parameter retrieval. -/
inductive ParameterException where
  | ParameterNotDeclaredException (name : String)
  | ParameterTypeException (name : String)
  deriving DecidableEq

/-- Method `Node::get_parameter(name)`: throws when the parameter is not
declared. -/
def get_parameter (options : NodeOptions) (name : String) :
    Except ParameterException ParameterValue :=
  match options.parameters name with
  | some v => .ok v
  | none => .error (.ParameterNotDeclaredException name)

/-- Method `Parameter::as_string()`: throws when the value is not a string. -/
def as_string (name : String) : ParameterValue → Except ParameterException String
  | .string_value s => .ok s
  | _ => .error (.ParameterTypeException name)

/-- Default-constructed `geometry_msgs::msg::Pose`. -/
def Pose.init : Pose := ⟨⟨0, 0, 0⟩, ⟨0, 0, 0, 1⟩⟩

/-- Default-constructed `nav_msgs::msg::Path`. -/
def Path.init : Path := ⟨⟨0, ""⟩, []⟩

/-- Default-constructed `sensor_msgs::msg::NavSatFix`. -/
def NavSatFix.init : NavSatFix := ⟨⟨0, ""⟩, 0, 0, 0⟩

/-- Body of the `try` block of the constructor (lines 54-55). Its two
declarations `std::string name` and `std::string topic_prefix_param` are
variables of the block: they end with it. -/
def try_block (options : NodeOptions) : Except ParameterException Unit := do
  let name ← (get_parameter options "name").bind (as_string "name")
  let topic_prefix_param ←
    (get_parameter options "topic_prefix").bind (as_string "topic_prefix")
  let _ := (name, topic_prefix_param)
  pure ()

/-- Constructor `Navigator::Navigator(options)`: the member variables after
it and the lines it logs. Members it does not assign keep their default
value; for `path_pub`, a shared pointer, that is null. -/
def Navigator (options : NodeOptions) : NodeState × List String :=
  let action_server_ := some "/navigation"
  let name := "path_server"
  let topic_prefix_param := "/fb"
  let log :=
    match try_block options with
    | .ok _ => []
    | .error _ => ["No parameters found, using default values"]
  let _ := name
  let fix_sub_ := some (topic_prefix_param ++ "/loc/fix")
  let odom_sub_ := some (topic_prefix_param ++ "/loc/odom")
  let sync_ := some 10
  let path_timer := some 1000
  ({ inited_waypoints := false
     fix_sub_ := fix_sub_
     odom_sub_ := odom_sub_
     sync_ := sync_
     path_nav := Path.init
     path_pub := none
     path_timer := path_timer
     current_pose_ := Pose.init
     current_gps_ := NavSatFix.init
     target_pose_ := ⟨0, 0, 0⟩
     action_server_ := action_server_ }, log)

/-! ## Callbacks -/

/-- Method `Navigator::sync_callback(fix, odom)`. -/
def sync_callback (s : NodeState) (fix : NavSatFix) (odom : Odometry) : NodeState :=
  let s := { s with current_pose_ := odom.pose }
  { s with current_gps_ := fix }

/-- Method `Navigator::handle_goal(uuid, goal)`: the response, the node
state after the call and the line logged. -/
def handle_goal (s : NodeState) (uuid : GoalUUID) (goal : Goal) :
    GoalResponse × NodeState × List String :=
  let _ := uuid
  let _ := goal
  (GoalResponse.ACCEPT_AND_EXECUTE, s, ["Received goal request"])

/-- Method `Navigator::handle_cancel(goal_handle)`: the response, the node
state after the call and the line logged. -/
def handle_cancel (s : NodeState) (goal_handle : GoalHandle) :
    CancelResponse × NodeState × List String :=
  let _ := goal_handle
  (CancelResponse.ACCEPT, s, ["Received request to cancel goal"])

/-- Faults of a callback. -/
inductive Fault where
  | null_dereference
  deriving DecidableEq

/-- Method `Navigator::path_timer_callback()` at time `now`: the node state
after the call and the messages published, or the fault of `path_pub->`
on a null pointer. -/
def path_timer_callback (s : NodeState) (now : Nat) : Except Fault (NodeState × List Path) :=
  let s := { s with path_nav := { s.path_nav with header := { s.path_nav.header with stamp := now } } }
  let s := { s with path_nav := { s.path_nav with header := { s.path_nav.header with frame_id := "map" } } }
  if s.inited_waypoints then
    match s.path_pub with
    | some _ => .ok (s, [s.path_nav])
    | none => .error Fault.null_dereference
  else
    .ok (s, [])

/-! ## Goal execution: `execute` -/

/-- What `execute` does on its goal handle and clock, in order. -/
inductive ExecEvent where
  | is_canceling (answer : Bool)
  | publish_feedback (feedback : Feedback)
  | sleep
  | canceled (result : Result)
  | succeed (result : Result)
  deriving DecidableEq

/-- Method `ServerGoalHandle::canceled(result)`. -/
def GoalHandle.canceled (h : GoalHandle) (result : Result) : GoalHandle :=
  { h with status := GoalStatus.Canceled, result := some result }

/-- Method `ServerGoalHandle::succeed(result)`. -/
def GoalHandle.succeed (h : GoalHandle) (result : Result) : GoalHandle :=
  { h with status := GoalStatus.Succeeded, result := some result }

/-- Method `ServerGoalHandle::publish_feedback(feedback)`. -/
def GoalHandle.publish_feedback (h : GoalHandle) (feedback : Feedback) : GoalHandle :=
  { h with feedback := h.feedback ++ [feedback] }

/-- State of one run of `execute`: the node, the goal handle, the number of
calls of `is_canceling` made and the events so far. -/
structure ExecState where
  node : NodeState
  handle : GoalHandle
  polls : Nat
  trace : List ExecEvent

/-- How a piece of code is left: `next` goes on (for a loop body, to the next
iteration; for a loop, it was still running when the fuel ended), `brk`
leaves the loop, `ret` returns from the function. -/
inductive Flow (σ : Type) where
  | next (s : σ)
  | brk (s : σ)
  | ret (s : σ)

/-- State carried by a `Flow`. -/
def Flow.state {σ : Type} : Flow σ → σ
  | .next s => s
  | .brk s => s
  | .ret s => s

/-- Loop `while (true) body`, run for at most `fuel` iterations. -/
def while_true {σ : Type} (body : σ → Flow σ) : Nat → σ → Flow σ
  | 0, s => .next s
  | fuel + 1, s =>
    match body s with
    | .next s' => while_true body fuel s'
    | .brk s' => .brk s'
    | .ret s' => .ret s'

/-- Lines 96-101 of `execute`: the goal's path becomes the active path and
the flag is set. -/
def execute_entry (s : NodeState) (goal_handle : GoalHandle) : NodeState :=
  let goal := goal_handle.goal
  let s := { s with path_nav := goal.initial_path }
  { s with inited_waypoints := true }

/-- Body of the loop of `execute` (lines 106-115). The answer of the `n`-th
call of `goal_handle->is_canceling()` is `canceling n`. -/
def execute_body (canceling : Nat → Bool) (feedback : Feedback) (result : Result)
    (empty_msg : EmptyMsg) (st : ExecState) : Flow ExecState :=
  if canceling st.polls then
    let result := { result with plan_result := empty_msg }
    .ret { st with
      handle := st.handle.canceled result
      polls := st.polls + 1
      trace := st.trace ++ [ExecEvent.is_canceling true, ExecEvent.canceled result] }
  else
    .next { st with
      handle := st.handle.publish_feedback feedback
      polls := st.polls + 1
      trace := st.trace ++ [ExecEvent.is_canceling false,
        ExecEvent.publish_feedback feedback, ExecEvent.sleep] }

/-- Method `Navigator::execute(goal_handle)`, its loop run for at most `fuel`
iterations; `ok` is the value of `rclcpp::ok()` (lines 119-123 follow the
loop). The result is `ret` when `execute` has returned and `next` when it is
still in its loop. -/
def execute (s : NodeState) (goal_handle : GoalHandle) (canceling : Nat → Bool) (ok : Bool)
    (fuel : Nat) : Flow ExecState :=
  let feedback : Feedback := {}
  let result : Result := { plan_result := {} }
  let s := execute_entry s goal_handle
  let empty_msg : EmptyMsg := {}
  match while_true (execute_body canceling feedback result empty_msg) fuel
      { node := s, handle := goal_handle, polls := 0, trace := [] } with
  | .next st => .next st
  | .ret st => .ret st
  | .brk st =>
    if ok then
      let result := { result with plan_result := empty_msg }
      .ret { st with
        handle := st.handle.succeed result
        trace := st.trace ++ [ExecEvent.succeed result] }
    else
      .ret st

/-! ## The node as a transition system -/

/-- What can happen to the node after its constructor. -/
inductive Event where
  | sync (fix : NavSatFix) (odom : Odometry)
  | goal_request (uuid : GoalUUID) (goal : Goal)
  | cancel_request (goal_handle : GoalHandle)
  | execute_start (goal_handle : GoalHandle)
  | execute_iteration (goal_handle : GoalHandle) (canceling : Bool)
  | tick (now : Nat)

/-- Effect of one event on the node state. -/
def step (s : NodeState) : Event → Except Fault NodeState
  | .sync fix odom => .ok (sync_callback s fix odom)
  | .goal_request uuid goal => .ok (handle_goal s uuid goal).2.1
  | .cancel_request goal_handle => .ok (handle_cancel s goal_handle).2.1
  | .execute_start goal_handle => .ok (execute_entry s goal_handle)
  | .execute_iteration goal_handle canceling =>
    .ok (execute_body (fun _ => canceling) {} { plan_result := {} } {}
      { node := s, handle := goal_handle, polls := 0, trace := [] }).state.node
  | .tick now => (path_timer_callback s now).map Prod.fst

/-- Effect of a sequence of events; a fault ends the run. -/
def run (s : NodeState) : List Event → Except Fault NodeState
  | [] => .ok s
  | e :: es =>
    match step s e with
    | .ok s' => run s' es
    | .error f => .error f

/-! ## Control law in double arithmetic

`get_nav_params` once more, with every operation read as the real operation
followed by rounding to binary64 (round to nearest, ties to even). The
rounding has no exponent bound: it is the rounding of doubles as long as no
intermediate result overflows, is subnormal or is NaN. -/

/-- Options without any parameter: every retrieval throws. -/
def no_parameters : NodeOptions := ⟨fun _ => none⟩

/-- Node state after the constructor with the current pose and the target
point set: position `(cx, cy, 0)`, orientation the rotation by `yaw` about
the vertical axis, target `(tx, ty, 0)`. -/
noncomputable def pose_state (cx cy yaw tx ty : ℝ) : NodeState :=
  { (Navigator no_parameters).1 with
    current_pose_ := ⟨⟨cx, cy, 0⟩, ⟨0, 0, Real.sin (yaw / 2), Real.cos (yaw / 2)⟩⟩
    target_pose_ := ⟨tx, ty, 0⟩ }

/-- Pose at `(x, y)` in frame `"map"`. -/
def pose_at (x y : ℝ) : PoseStamped := ⟨⟨0, "map"⟩, ⟨⟨x, y, 0⟩, ⟨0, 0, 0, 1⟩⟩⟩

/-- Path of five poses. -/
def five_pose_path : Path :=
  ⟨⟨0, ""⟩, [pose_at 0 0, pose_at 1 0, pose_at 2 0, pose_at 3 0, pose_at 4 0]⟩

/-- Goal handle of a goal with the five-pose path, as `execute` receives
it. -/
def five_pose_handle : GoalHandle := ⟨⟨five_pose_path⟩, GoalStatus.Executing, none, []⟩

/-- Options with both parameters declared as strings. -/
def robot_parameters : NodeOptions :=
  ⟨fun n =>
    if n = "name" then some (ParameterValue.string_value "nav")
    else if n = "topic_prefix" then some (ParameterValue.string_value "/robot")
    else none⟩

/-- Events of `n` iterations of the loop of `execute` without a pending
cancellation. -/
def feedback_rounds : Nat → List ExecEvent
  | 0 => []
  | n + 1 =>
    [ExecEvent.is_canceling false, ExecEvent.publish_feedback {}, ExecEvent.sleep] ++
      feedback_rounds n

/-! ## Lemmas on the control law -/

theorem std_max_eq_max {α : Type} [LinearOrder α] (a b : α) : std_max a b = max a b := by
  unfold std_max
  split_ifs with h
  · exact (max_eq_right h.le).symm
  · exact (max_eq_left (not_lt.mp h)).symm

theorem std_min_eq_min {α : Type} [LinearOrder α] (a b : α) : std_min a b = min a b := by
  unfold std_min
  split_ifs with h
  · exact (min_eq_right h.le).symm
  · exact (min_eq_left (not_lt.mp h)).symm

theorem get_nav_params_eq (s : NodeState) (angle_max velocity_max : ℝ) :
    get_nav_params s angle_max velocity_max =
      (max (-velocity_max) (min (0.2 * distance s) velocity_max),
       max (-angle_max) (min (heading_corrected (preheading s - orientation s)) angle_max),
       distance s) := by
  simp only [get_nav_params, std_max_eq_max, std_min_eq_min]

theorem distance_nonneg (s : NodeState) : 0 ≤ distance s := Real.sqrt_nonneg _

theorem abs_clamp_le (v m : ℝ) (hm : 0 ≤ m) : |max (-m) (min v m)| ≤ m := by
  rw [abs_le]
  constructor
  · exact le_max_left _ _
  · exact max_le (by linarith) (min_le_right _ _)

theorem clamp_of_neg (v m : ℝ) (hm : m < 0) : max (-m) (min v m) = -m := by
  apply max_eq_left
  have := min_le_right v m
  linarith

theorem atan2_mem_Ioc (y x : ℝ) : atan2 y x ∈ Set.Ioc (-Real.pi) Real.pi :=
  Complex.arg_mem_Ioc _

theorem atan2_zero_zero : atan2 0 0 = 0 := by
  unfold atan2
  have : (⟨(0 : ℝ), (0 : ℝ)⟩ : ℂ) = 0 := by
    apply Complex.ext <;> simp
  rw [this]
  exact Complex.arg_zero

theorem atan2_polar (y x : ℝ) (h : x ≠ 0 ∨ y ≠ 0) :
    Real.cos (atan2 y x) = x / Real.sqrt (x * x + y * y) ∧
    Real.sin (atan2 y x) = y / Real.sqrt (x * x + y * y) := by
  have hz : (⟨x, y⟩ : ℂ) ≠ 0 := by
    intro hc
    have hre := congrArg Complex.re hc
    have him := congrArg Complex.im hc
    simp at hre him
    rcases h with h | h
    · exact h hre
    · exact h him
  have ha : Complex.abs ⟨x, y⟩ = Real.sqrt (x * x + y * y) := by
    rw [Complex.abs_apply, Complex.normSq_apply]
  unfold atan2
  rw [Complex.cos_arg hz, Complex.sin_arg, ha]
  exact ⟨rfl, rfl⟩

theorem heading_corrected_eq_toIocMod (h : ℝ) :
    heading_corrected h = toIocMod Real.two_pi_pos (-Real.pi) h := by
  have hz : (⟨Real.cos h, Real.sin h⟩ : ℂ) =
      Complex.cos (h : ℂ) + Complex.sin (h : ℂ) * Complex.I := by
    apply Complex.ext
    · simp [← Complex.ofReal_cos, ← Complex.ofReal_sin]
    · simp [← Complex.ofReal_cos, ← Complex.ofReal_sin]
  unfold heading_corrected atan2
  rw [hz]
  exact Complex.arg_cos_add_sin_mul_I_eq_toIocMod h

/-- C1. With `angle_max ≥ 0` and `velocity_max ≥ 0`, the triple returned by
`get_nav_params` has `|velocity| ≤ velocity_max`, `|angular| ≤ angle_max` and
`distance ≥ 0`, whatever the current pose and the target point. -/
theorem get_nav_params_bounds (s : NodeState) (angle_max velocity_max : ℝ)
    (ha : 0 ≤ angle_max) (hv : 0 ≤ velocity_max) :
    |(get_nav_params s angle_max velocity_max).1| ≤ velocity_max ∧
    |(get_nav_params s angle_max velocity_max).2.1| ≤ angle_max ∧
    0 ≤ (get_nav_params s angle_max velocity_max).2.2 := by
  rw [get_nav_params_eq]
  exact ⟨abs_clamp_le _ _ hv, abs_clamp_le _ _ ha, distance_nonneg s⟩

/-- C1 at current `(1, 2)`, yaw `0`, target `(4, 6)` and the default limits. -/
theorem get_nav_params_bounds_witness :
    |(get_nav_params (pose_state 1 2 0 4 6) 0.4 0.3).1| ≤ 0.3 ∧
    |(get_nav_params (pose_state 1 2 0 4 6) 0.4 0.3).2.1| ≤ 0.4 ∧
    0 ≤ (get_nav_params (pose_state 1 2 0 4 6) 0.4 0.3).2.2 :=
  get_nav_params_bounds (pose_state 1 2 0 4 6) 0.4 0.3 (by norm_num) (by norm_num)

/-- C4. When the target's `x` and `y` equal those of the current position
and `velocity_max ≥ 0`, `get_nav_params` returns distance `0` and velocity
`0`, for every orientation and every `angle_max`. -/
theorem get_nav_params_zero_case (s : NodeState) (angle_max velocity_max : ℝ)
    (hv : 0 ≤ velocity_max)
    (hx : s.target_pose_.x = s.current_pose_.position.x)
    (hy : s.target_pose_.y = s.current_pose_.position.y) :
    (get_nav_params s angle_max velocity_max).2.2 = 0 ∧
    (get_nav_params s angle_max velocity_max).1 = 0 := by
  have hd : distance s = 0 := by simp [distance, hx, hy]
  rw [get_nav_params_eq, hd]
  refine ⟨rfl, ?_⟩
  show max (-velocity_max) (min (0.2 * 0) velocity_max) = 0
  rw [mul_zero, min_eq_left hv, max_eq_right (by linarith)]

/-- C4 at current and target `(3, -2)`, yaw `1`, limits `-1` and `0.3`. -/
theorem get_nav_params_zero_case_witness :
    (get_nav_params (pose_state 3 (-2) 1 3 (-2)) (-1) 0.3).2.2 = 0 ∧
    (get_nav_params (pose_state 3 (-2) 1 3 (-2)) (-1) 0.3).1 = 0 :=
  get_nav_params_zero_case (pose_state 3 (-2) 1 3 (-2)) (-1) 0.3 (by norm_num) rfl rfl

/-- C10. A negative limit inverts the clamp: with `velocity_max < 0` the
velocity returned is `-velocity_max`, with `angle_max < 0` the angular rate
returned is `-angle_max`, whatever the pose and the target; the value is then
strictly above the limit and `|output| ≤ limit` fails. -/
theorem get_nav_params_negative_limits (s : NodeState) (angle_max velocity_max : ℝ) :
    (velocity_max < 0 →
      (get_nav_params s angle_max velocity_max).1 = -velocity_max ∧
      velocity_max < (get_nav_params s angle_max velocity_max).1 ∧
      ¬ |(get_nav_params s angle_max velocity_max).1| ≤ velocity_max) ∧
    (angle_max < 0 →
      (get_nav_params s angle_max velocity_max).2.1 = -angle_max ∧
      angle_max < (get_nav_params s angle_max velocity_max).2.1 ∧
      ¬ |(get_nav_params s angle_max velocity_max).2.1| ≤ angle_max) := by
  rw [get_nav_params_eq]
  constructor
  · intro hv
    have h : max (-velocity_max) (min (0.2 * distance s) velocity_max) = -velocity_max :=
      clamp_of_neg _ _ hv
    simp only [h]
    refine ⟨trivial, by linarith, ?_⟩
    intro hle
    have := abs_nonneg (-velocity_max)
    linarith
  · intro ha
    have h : max (-angle_max)
        (min (heading_corrected (preheading s - orientation s)) angle_max) = -angle_max :=
      clamp_of_neg _ _ ha
    simp only [h]
    refine ⟨trivial, by linarith, ?_⟩
    intro hle
    have := abs_nonneg (-angle_max)
    linarith

/-- C10 at current the origin, target `(10, 0)` and limits `-0.4`, `-0.3`. -/
theorem get_nav_params_negative_limits_witness :
    (get_nav_params (pose_state 0 0 0 10 0) (-0.4) (-0.3)).1 = 0.3 ∧
    (get_nav_params (pose_state 0 0 0 10 0) (-0.4) (-0.3)).2.1 = 0.4 := by
  have h := get_nav_params_negative_limits (pose_state 0 0 0 10 0) (-0.4) (-0.3)
  refine ⟨?_, ?_⟩
  · rw [(h.1 (by norm_num)).1]; norm_num
  · rw [(h.2 (by norm_num)).1]; norm_num

/-- C2. The value `heading_corrected = atan2(sin h, cos h)` of `get_nav_params`
lies in `(-π, π]` and differs from `h` by an integer multiple of `2π`, for
every real `h`; `h = π + 0.1` is normalised to `-(π - 0.1)`; and the angular
output is the clamp of this value at `h = preheading - orientation`. -/
theorem heading_corrected_wrap (s : NodeState) (angle_max velocity_max : ℝ) :
    (∀ h : ℝ, heading_corrected h ∈ Set.Ioc (-Real.pi) Real.pi ∧
      ∃ k : ℤ, heading_corrected h = h + k * (2 * Real.pi)) ∧
    heading_corrected (Real.pi + 0.1) = -(Real.pi - 0.1) ∧
    (get_nav_params s angle_max velocity_max).2.1 =
      std_max (-angle_max)
        (std_min (heading_corrected (preheading s - orientation s)) angle_max) := by
  refine ⟨fun h => ⟨atan2_mem_Ioc _ _, ?_⟩, ?_, rfl⟩
  · refine ⟨-toIocDiv Real.two_pi_pos (-Real.pi) h, ?_⟩
    have e := self_sub_toIocMod Real.two_pi_pos (-Real.pi) h
    rw [heading_corrected_eq_toIocMod]
    rw [zsmul_eq_mul] at e
    push_cast
    linarith
  · rw [heading_corrected_eq_toIocMod, toIocMod_eq_iff]
    refine ⟨⟨by linarith, by linarith [Real.pi_gt_three]⟩, 1, ?_⟩
    rw [one_smul]
    ring

theorem while_true_no_cancel (canceling : Nat → Bool) (n : Nat) :
    ∀ st : ExecState, (∀ i, i < n → canceling (st.polls + i) = false) →
      while_true (execute_body canceling {} { plan_result := {} } {}) n st =
        Flow.next
          { node := st.node
            handle := { st.handle with feedback := st.handle.feedback ++ List.replicate n {} }
            polls := st.polls + n
            trace := st.trace ++ feedback_rounds n } := by
  induction n with
  | zero =>
    intro st _
    simp [while_true, feedback_rounds]
  | succ n ih =>
    intro st h
    have h0 : canceling st.polls = false := by simpa using h 0 (Nat.succ_pos n)
    have hb : execute_body canceling {} { plan_result := {} } {} st =
        Flow.next { st with
          handle := st.handle.publish_feedback {}
          polls := st.polls + 1
          trace := st.trace ++ [ExecEvent.is_canceling false,
            ExecEvent.publish_feedback {}, ExecEvent.sleep] } := by
      simp [execute_body, h0]
    have hrest : ∀ i, i < n → canceling (st.polls + 1 + i) = false := by
      intro i hi
      have := h (i + 1) (Nat.succ_lt_succ hi)
      rwa [show st.polls + (i + 1) = st.polls + 1 + i by omega] at this
    rw [while_true, hb]
    simp only []
    rw [ih _ hrest]
    simp [GoalHandle.publish_feedback, feedback_rounds, List.replicate_succ, Nat.add_assoc,
      Nat.add_comm 1 n]

theorem while_true_cancel (canceling : Nat → Bool) (k : Nat) :
    ∀ (fuel : Nat) (st : ExecState), (∀ i, i < k → canceling (st.polls + i) = false) →
      canceling (st.polls + k) = true → k < fuel →
      while_true (execute_body canceling {} { plan_result := {} } {}) fuel st =
        Flow.ret
          { node := st.node
            handle :=
              { st.handle with
                status := GoalStatus.Canceled
                result := some { plan_result := {} }
                feedback := st.handle.feedback ++ List.replicate k {} }
            polls := st.polls + k + 1
            trace := st.trace ++ feedback_rounds k ++
              [ExecEvent.is_canceling true, ExecEvent.canceled { plan_result := {} }] } := by
  induction k with
  | zero =>
    intro fuel st _ hc hf
    obtain ⟨fuel, rfl⟩ : ∃ m, fuel = m + 1 := ⟨fuel - 1, by omega⟩
    have hc0 : canceling st.polls = true := by simpa using hc
    simp [while_true, execute_body, hc0, GoalHandle.canceled, feedback_rounds]
  | succ k ih =>
    intro fuel st h hc hf
    obtain ⟨fuel, rfl⟩ : ∃ m, fuel = m + 1 := ⟨fuel - 1, by omega⟩
    have h0 : canceling st.polls = false := by simpa using h 0 (Nat.succ_pos k)
    have hb : execute_body canceling {} { plan_result := {} } {} st =
        Flow.next { st with
          handle := st.handle.publish_feedback {}
          polls := st.polls + 1
          trace := st.trace ++ [ExecEvent.is_canceling false,
            ExecEvent.publish_feedback {}, ExecEvent.sleep] } := by
      simp [execute_body, h0]
    have hrest : ∀ i, i < k → canceling (st.polls + 1 + i) = false := by
      intro i hi
      have := h (i + 1) (Nat.succ_lt_succ hi)
      rwa [show st.polls + (i + 1) = st.polls + 1 + i by omega] at this
    have hc' : canceling (st.polls + 1 + k) = true := by
      rwa [show st.polls + (k + 1) = st.polls + 1 + k by omega] at hc
    rw [while_true, hb]
    simp only []
    rw [ih fuel _ hrest hc' (by omega)]
    simp [GoalHandle.publish_feedback, feedback_rounds, List.replicate_succ, Nat.add_assoc,
      Nat.add_comm 1 k]

theorem while_true_no_succeed (canceling : Nat → Bool) (fuel : Nat) :
    ∀ st : ExecState, (∀ r, ExecEvent.succeed r ∉ st.trace) →
      (∀ st', while_true (execute_body canceling {} { plan_result := {} } {}) fuel st ≠
        Flow.brk st') ∧
      ∀ r, ExecEvent.succeed r ∉
        (while_true (execute_body canceling {} { plan_result := {} } {}) fuel st).state.trace := by
  induction fuel with
  | zero =>
    intro st h
    exact ⟨fun st' hc => by simp [while_true] at hc, fun r => by simpa [while_true, Flow.state] using h r⟩
  | succ fuel ih =>
    intro st h
    by_cases hc : canceling st.polls = true
    · have hb : execute_body canceling {} { plan_result := {} } {} st =
          Flow.ret { st with
            handle := st.handle.canceled { plan_result := {} }
            polls := st.polls + 1
            trace := st.trace ++ [ExecEvent.is_canceling true,
              ExecEvent.canceled { plan_result := {} }] } := by
        simp [execute_body, hc]
      rw [while_true, hb]
      refine ⟨fun st' hc' => by simp at hc', fun r => ?_⟩
      simpa [Flow.state] using h r
    · have hb : execute_body canceling {} { plan_result := {} } {} st =
          Flow.next { st with
            handle := st.handle.publish_feedback {}
            polls := st.polls + 1
            trace := st.trace ++ [ExecEvent.is_canceling false,
              ExecEvent.publish_feedback {}, ExecEvent.sleep] } := by
        simp [execute_body, hc]
      rw [while_true, hb]
      apply ih
      intro r
      simpa using h r

/-! ## Lemmas on the transition system -/

theorem step_path_pub (s s' : NodeState) (e : Event) (h : step s e = Except.ok s') :
    s'.path_pub = s.path_pub := by
  cases e with
  | sync fix odom => cases h; rfl
  | goal_request uuid goal => cases h; rfl
  | cancel_request goal_handle => cases h; rfl
  | execute_start goal_handle => cases h; rfl
  | execute_iteration goal_handle canceling =>
    cases canceling <;> (cases h; rfl)
  | tick now =>
    cases hi : s.inited_waypoints <;> cases hp : s.path_pub <;>
      simp [step, path_timer_callback, hi, hp, Except.map] at h <;>
      (subst h; simp [hp])

theorem step_inited_waypoints (s s' : NodeState) (e : Event) (h : step s e = Except.ok s')
    (hi : s.inited_waypoints = true) : s'.inited_waypoints = true := by
  cases e with
  | sync fix odom => cases h; exact hi
  | goal_request uuid goal => cases h; exact hi
  | cancel_request goal_handle => cases h; exact hi
  | execute_start goal_handle => cases h; rfl
  | execute_iteration goal_handle canceling =>
    cases canceling <;> (cases h; exact hi)
  | tick now =>
    cases hp : s.path_pub with
    | none => simp [step, path_timer_callback, hi, hp, Except.map] at h
    | some pub =>
      simp [step, path_timer_callback, hi, hp, Except.map] at h
      subst h
      simp [hi]

theorem tick_null_publisher (s : NodeState) (now : Nat) (hp : s.path_pub = none)
    (hi : s.inited_waypoints = true) :
    path_timer_callback s now = Except.error Fault.null_dereference := by
  simp [path_timer_callback, hp, hi]

theorem run_then_tick (now : Nat) (events : List Event) :
    ∀ s : NodeState, s.path_pub = none →
      (s.inited_waypoints = true ∨ ∃ goal_handle, Event.execute_start goal_handle ∈ events) →
      run s (events ++ [Event.tick now]) = Except.error Fault.null_dereference := by
  induction events with
  | nil =>
    intro s hp hi
    have hi' : s.inited_waypoints = true := by
      rcases hi with hi | ⟨_, hm⟩
      · exact hi
      · cases hm
    simp [run, step, tick_null_publisher s now hp hi', Except.map]
  | cons e events ih =>
    intro s hp hi
    rw [List.cons_append, run]
    cases hs : step s e with
    | error f => cases f; rfl
    | ok s' =>
      simp only []
      apply ih s' (by rw [step_path_pub s s' e hs, hp])
      rcases hi with hi | ⟨goal_handle, hm⟩
      · exact Or.inl (step_inited_waypoints s s' e hs hi)
      · rcases List.mem_cons.mp hm with rfl | hm
        · left
          cases hs
          rfl
        · exact Or.inr ⟨goal_handle, hm⟩

/-! ## Theorems on `execute` -/

/-- C5. Trace of `execute`, for every node state, goal handle and sequence
of answers of `is_canceling`: (1) if the first pending cancellation is at
poll `k`, then with more than `k` iterations allowed `execute` returns after
`k + 1` polls, its events being `k` rounds of poll, feedback, sleep followed
by the poll that answers true and `canceled` with an empty `plan_result`,
and the goal is Canceled; (2) as long as no poll has answered true, after
`n` iterations it is still in its loop with `n` polls and `n` feedback
messages; (3) in no run does it call `succeed`. -/
theorem execute_trace (s : NodeState) (goal_handle : GoalHandle) (canceling : Nat → Bool)
    (ok : Bool) :
    (∀ k fuel, (∀ i, i < k → canceling i = false) → canceling k = true → k < fuel →
      execute s goal_handle canceling ok fuel =
        Flow.ret
          { node := execute_entry s goal_handle
            handle :=
              { goal := goal_handle.goal
                status := GoalStatus.Canceled
                result := some { plan_result := {} }
                feedback := goal_handle.feedback ++ List.replicate k {} }
            polls := k + 1
            trace := feedback_rounds k ++
              [ExecEvent.is_canceling true, ExecEvent.canceled { plan_result := {} }] }) ∧
    (∀ n, (∀ i, i < n → canceling i = false) →
      execute s goal_handle canceling ok n =
        Flow.next
          { node := execute_entry s goal_handle
            handle := { goal_handle with feedback := goal_handle.feedback ++ List.replicate n {} }
            polls := n
            trace := feedback_rounds n }) ∧
    (∀ fuel r, ExecEvent.succeed r ∉ (execute s goal_handle canceling ok fuel).state.trace) := by
  refine ⟨?_, ?_, ?_⟩
  · intro k fuel h hc hf
    have := while_true_cancel canceling k fuel
      { node := execute_entry s goal_handle, handle := goal_handle, polls := 0, trace := [] }
      (by simpa using h) (by simpa using hc) hf
    simp only [execute, this]
    simp
  · intro n h
    have := while_true_no_cancel canceling n
      { node := execute_entry s goal_handle, handle := goal_handle, polls := 0, trace := [] }
      (by simpa using h)
    simp only [execute, this]
    simp
  · intro fuel r
    have := while_true_no_succeed canceling fuel
      { node := execute_entry s goal_handle, handle := goal_handle, polls := 0, trace := [] }
      (by simp)
    generalize hw : while_true (execute_body canceling {} { plan_result := {} } {}) fuel
      { node := execute_entry s goal_handle, handle := goal_handle, polls := 0, trace := [] } = w
      at this
    simp only [execute, hw]
    cases w with
    | next st => simpa [Flow.state] using this.2 r
    | ret st => simpa [Flow.state] using this.2 r
    | brk st => exact absurd rfl (this.1 st)

/-- C5 with the cancellation pending at the third poll: two rounds of
feedback, then `canceled`. -/
theorem execute_trace_witness :
    execute (Navigator no_parameters).1 five_pose_handle (fun n => decide (n = 2)) true 5 =
      Flow.ret
        { node := execute_entry (Navigator no_parameters).1 five_pose_handle
          handle :=
            { goal := ⟨five_pose_path⟩
              status := GoalStatus.Canceled
              result := some { plan_result := {} }
              feedback := [{}, {}] }
          polls := 3
          trace :=
            [ExecEvent.is_canceling false, ExecEvent.publish_feedback {}, ExecEvent.sleep,
             ExecEvent.is_canceling false, ExecEvent.publish_feedback {}, ExecEvent.sleep,
             ExecEvent.is_canceling true, ExecEvent.canceled { plan_result := {} }] } :=
  (execute_trace (Navigator no_parameters).1 five_pose_handle (fun n => decide (n = 2)) true).1
    2 5 (by decide) (by decide) (by decide)

/-! ## Theorems on the callbacks -/

/-- C9. `handle_goal` returns `ACCEPT_AND_EXECUTE` for every identifier and
every goal, `handle_cancel` returns `ACCEPT` for every goal handle, and both
leave the node state as it was. -/
theorem unconditional_acceptance (s : NodeState) :
    (∀ (uuid : GoalUUID) (goal : Goal),
      (handle_goal s uuid goal).1 = GoalResponse.ACCEPT_AND_EXECUTE ∧
      (handle_goal s uuid goal).2.1 = s) ∧
    (∀ goal_handle : GoalHandle,
      (handle_cancel s goal_handle).1 = CancelResponse.ACCEPT ∧
      (handle_cancel s goal_handle).2.1 = s) ∧
    (handle_goal s [] ⟨Path.init⟩).1 = GoalResponse.ACCEPT_AND_EXECUTE ∧
    (handle_cancel s ⟨⟨Path.init⟩, GoalStatus.Succeeded, some { plan_result := {} }, []⟩).1 =
      CancelResponse.ACCEPT :=
  ⟨fun _ _ => ⟨rfl, rfl⟩, fun _ => ⟨rfl, rfl⟩, rfl, rfl⟩

/-- C6, as the code has it. With `inited_waypoints` false,
`path_timer_callback` publishes nothing and does not fault; it sets the
header of the active path to the current time and the frame label `"map"`
and leaves the poses of the path and every other member unchanged. -/
theorem tick_before_first_goal (s : NodeState) (now : Nat) (h : s.inited_waypoints = false) :
    path_timer_callback s now =
      Except.ok ({ s with path_nav := { header := ⟨now, "map"⟩, poses := s.path_nav.poses } }, []) := by
  simp [path_timer_callback, h]

/-- C6 as the code has it, at the state after the constructor and time `5`. -/
theorem tick_before_first_goal_witness :
    path_timer_callback (Navigator no_parameters).1 5 =
      Except.ok ({ (Navigator no_parameters).1 with
        path_nav := { header := ⟨5, "map"⟩, poses := [] } }, []) :=
  tick_before_first_goal (Navigator no_parameters).1 5 rfl

/-- C6, counterexample. In the state after the constructor the flag is
false, and a tick at time `5` does not leave the node state unchanged: the
header of the active path goes from stamp `0` and frame `""` to stamp `5` and
frame `"map"`. -/
theorem tick_before_first_goal_changes_header :
    (Navigator no_parameters).1.inited_waypoints = false ∧
    path_timer_callback (Navigator no_parameters).1 5 ≠
      Except.ok ((Navigator no_parameters).1, []) ∧
    ∃ s', path_timer_callback (Navigator no_parameters).1 5 = Except.ok (s', []) ∧
      (Navigator no_parameters).1.path_nav.header.stamp = 0 ∧
      (Navigator no_parameters).1.path_nav.header.frame_id = "" ∧
      s'.path_nav.header.stamp = 5 ∧
      s'.path_nav.header.frame_id = "map" := by
  refine ⟨rfl, ?_, _, rfl, rfl, rfl, rfl, rfl⟩
  intro h
  have h2 := congrArg (fun r => match r with
    | Except.ok (s', _) => s'.path_nav.header.stamp
    | Except.error _ => 0) h
  simp [path_timer_callback, Navigator, Path.init] at h2

/-- C7, evaluation of the code. The constructor leaves `path_pub` null, so
after a goal with a five-pose path is accepted and its `execute` has started,
the broadcast tick faults on `path_pub->publish` and publishes nothing; and
so does, for every options value, the first tick that follows the start of
any goal's `execute`, whatever events come before and between. -/
theorem broadcast_tick_null_publisher :
    (Navigator no_parameters).1.path_pub = none ∧
    (execute_entry (Navigator no_parameters).1 five_pose_handle).inited_waypoints = true ∧
    (execute_entry (Navigator no_parameters).1 five_pose_handle).path_nav.poses.length = 5 ∧
    path_timer_callback (execute_entry (Navigator no_parameters).1 five_pose_handle) 1 =
      Except.error Fault.null_dereference ∧
    run (Navigator no_parameters).1
      [Event.goal_request [] ⟨five_pose_path⟩, Event.execute_start five_pose_handle,
        Event.tick 1] = Except.error Fault.null_dereference ∧
    ∀ (options : NodeOptions) (before : List Event) (goal_handle : GoalHandle)
      (between : List Event) (now : Nat),
      run (Navigator options).1
        (before ++ Event.execute_start goal_handle :: between ++ [Event.tick now]) =
        Except.error Fault.null_dereference := by
  refine ⟨rfl, rfl, rfl, rfl, rfl, ?_⟩
  intro options before goal_handle between now
  have e : before ++ Event.execute_start goal_handle :: between ++ [Event.tick now] =
      (before ++ Event.execute_start goal_handle :: between) ++ [Event.tick now] := by simp
  rw [e]
  exact run_then_tick now _ _ rfl (Or.inr ⟨goal_handle, by simp⟩)

/-- C8, evaluation of the code. With `name = "nav"` and `topic_prefix =
"/robot"` declared, the retrieval in the `try` block succeeds and nothing is
logged, and the node still subscribes to `"/fb/loc/fix"` and
`"/fb/loc/odom"`; it does so for every options value. -/
theorem topic_prefix_parameter_unused :
    (get_parameter robot_parameters "topic_prefix").bind (as_string "topic_prefix") =
      Except.ok "/robot" ∧
    (Navigator robot_parameters).2 = [] ∧
    (Navigator robot_parameters).1.fix_sub_ = some "/fb/loc/fix" ∧
    (Navigator robot_parameters).1.odom_sub_ = some "/fb/loc/odom" ∧
    ∀ options : NodeOptions,
      (Navigator options).1.fix_sub_ = some "/fb/loc/fix" ∧
      (Navigator options).1.odom_sub_ = some "/fb/loc/odom" := by
  refine ⟨rfl, rfl, rfl, rfl, fun options => ⟨rfl, rfl⟩⟩

end PathServer
